import Mathlib

/-!
Shallow embedding of the Empathic Listener chat client (single-file React app).
The embedded operations are translated from the source: the sentiment scorer
`sentimentScore`, slash-command router `routeSlashCommand`, prompt composer
`enhancePrompt`, parameter clamping used in the outbound payload, the core
`send` loop with its cache, retry/backoff and busy flag, and `importChat`.

Strings are modelled as Lean `String` (a wrapper around `List Char`), which
matches the JS string operations used by the code (`trim`, `toLowerCase`,
`includes`, `startsWith`, `slice(1)`, `split(' ')`, `join(' ')`) on the ASCII
data involved.  Timestamps (`ts` fields set from `nowISO()`) are omitted from
messages: no modelled operation reads them.  Effects of `send` (network
attempts with their payload, backoff sleeps, busy-flag writes, cache writes,
message appends, `alert` popups) are recorded as an explicit event trace.
-/

namespace EmpathicListener

/-- Boolean prefix test on character lists (JS `startsWith` semantics). -/
def pfx : List Char → List Char → Bool
  | [], _ => true
  | _ :: _, [] => false
  | a :: as, b :: bs => if a = b then pfx as bs else false

/-- Boolean substring test: `hasSub w t` holds iff `w` occurs contiguously in
`t` (JS `t.includes(w)` semantics). -/
def hasSub (w : List Char) : List Char → Bool
  | [] => w.isEmpty
  | c :: ts => pfx w (c :: ts) || hasSub w ts

/-- JS `toLowerCase` on the ASCII data involved. -/
def jsLower (s : String) : String := ⟨s.data.map Char.toLower⟩

/-- JS `String.prototype.trim`: strip leading and trailing whitespace. -/
def jsTrim (s : String) : String :=
  ⟨((s.data.dropWhile Char.isWhitespace).reverse.dropWhile Char.isWhitespace).reverse⟩

/-- JS `t.includes(w)`. -/
def jsIncludes (t w : String) : Bool := hasSub w.data t.data

/-- JS `s.startsWith(p)`. -/
def jsStartsWith (s p : String) : Bool := pfx p.data s.data

/-- JS `split(' ')` on character lists: split on every single space,
keeping empty segments (`"".split(' ') = [""]`, `" b".split(' ') = ["","b"]`). -/
def splitSp : List Char → List (List Char)
  | [] => [[]]
  | c :: cs =>
    let r := splitSp cs
    if c = ' ' then [] :: r
    else
      match r with
      | [] => [[c]]
      | g :: gs => (c :: g) :: gs

/-- JS `join(' ')` on character lists. -/
def joinSp : List (List Char) → List Char
  | [] => []
  | [g] => g
  | g :: gs => g ++ ' ' :: joinSp gs

-- ---------- Sentiment Hinter ----------

/-- The fixed negative keyword list `NEG` of `sentimentScore`. -/
def NEG : List String :=
  ["sad", "depressed", "anxious", "anxiety", "stressed", "alone", "lonely",
   "angry", "upset", "hurt", "ashamed", "guilty", "tired", "overwhelmed",
   "panic", "cry", "hate", "worthless", "failure", "lost", "hopeless",
   "suicidal"]

/-- The fixed positive keyword list `POS` of `sentimentScore`. -/
def POS : List String :=
  ["grateful", "happy", "hopeful", "excited", "proud", "calm", "relieved",
   "love", "optimistic", "progress", "peace"]

/-- `sentimentScore(text)`: lowercase the text, subtract 1 for each negative
keyword occurring as a substring, add 1 for each positive keyword occurring as
a substring; empty (falsy) text scores 0.  The two `forEach` loops over the
keyword lists are embedded as left folds over the mutable accumulator `s`. -/
def sentimentScore (text : String) : Int :=
  if text = "" then 0
  else
    let t := jsLower text
    let s := NEG.foldl (fun s w => if jsIncludes t w then s - 1 else s) 0
    POS.foldl (fun s w => if jsIncludes t w then s + 1 else s) s

/-- Keyword presence: `w` occurs case-insensitively as a substring of `text`
(the match performed by `sentimentScore` for each keyword). -/
def present (text w : String) : Bool := jsIncludes (jsLower text) w

-- ---------- Prompt Composer ----------

/-- `routeSlashCommand(text)`: if the trimmed text starts with `/`, split the
rest on spaces into a command token and a body; recognized commands expand to
a fixed template with the body appended; anything else passes through
unchanged. -/
def routeSlashCommand (text : String) : String :=
  let t := jsTrim text
  if jsStartsWith t "/" then
    match splitSp (t.data.drop 1) with
    | [] => text
    | cmd :: rest =>
      let body : String := ⟨joinSp rest⟩
      let cl : String := ⟨cmd.map Char.toLower⟩
      if cl = "summarize" then
        "Summarize this in 3 bullets and 1 next step.\n\n" ++ body
      else if cl = "reframe" then
        "Reframe this thought compassionately and propose one experiment.\n\n" ++ body
      else if cl = "coach" then
        "Act as a supportive coach: ask one clarifying question, then suggest a next action.\n\n" ++ body
      else if cl = "journal" then
        "Help me journal: give a 4-line guided prompt, then hold space for 60 seconds (describe a quick breathing anchor).\n\n" ++ body
      else text
  else text

/-- `enhancePrompt(raw)`: wrap the (possibly command-expanded) text with the
fixed system preamble, a tone hint chosen from the sentiment score, and — in
empathic mode — the fixed 4-step scaffold. -/
def enhancePrompt (empathicMode : Bool) (raw : String) : String :=
  let sScore := sentimentScore raw
  let toneHint :=
    if sScore < 0 then "gentle, validating, non-judgmental"
    else if sScore > 0 then "encouraging, balanced"
    else "neutral, respectful"
  let empathicScaffold :=
    if empathicMode then
      "\n\nFollow this structure briefly: 1) Reflect what you heard, 2) Name underlying needs/values, 3) Offer 2 options (self-care + practical), 4) Ask a small open question."
    else ""
  "You are an empathic, trauma-informed AI listener. Avoid medical/clinical claims. Be kind, concise and specific. Use plain language.\nTone: "
    ++ toneHint ++ "." ++ empathicScaffold ++ "\n\nUser message: " ++ raw

-- ---------- Generation parameters ----------

/-- `clamp(v, a, b) = Math.max(a, Math.min(v, b))`. -/
def clamp (v a b : ℚ) : ℚ := max a (min v b)

/-- JS `Number(x) || d`: `none` models a stored value whose `Number`
conversion is `NaN`; a stored `0` is falsy and also falls back to `d`. -/
def jsNumOr (v : Option ℚ) (d : ℚ) : ℚ :=
  match v with
  | none => d
  | some x => if x = 0 then d else x

/-- Temperature placed in the payload: `clamp(Number(state.temperature) || 0.7, 0, 2)`. -/
def sentTemperature (v : Option ℚ) : ℚ := clamp (jsNumOr v (7 / 10)) 0 2

/-- topP placed in the payload: `clamp(Number(state.topP) || 0.95, 0, 1)`. -/
def sentTopP (v : Option ℚ) : ℚ := clamp (jsNumOr v (19 / 20)) 0 1

/-- topK placed in the payload: `clamp(Number(state.topK) || 40, 1, 200)`. -/
def sentTopK (v : Option ℚ) : ℚ := clamp (jsNumOr v 40) 1 200

-- ---------- Data model ----------

/-- Message roles. -/
inductive Role
  | user
  | assistant
deriving DecidableEq, Repr

/-- A chat message: `{role, text, cached?, error?}` (the `ts` timestamp is
omitted: no modelled operation reads it). -/
structure Msg where
  role : Role
  text : String
  cached : Bool := false
  error : Bool := false
deriving DecidableEq, Repr

/-- The slice of the persisted Session State that the modelled operations
read or write.  `temperature`, `topP` and `topK` are stored post
`Number(...)`-conversion, with `none` modelling NaN.  Fields the modelled
operations never touch (model name, presets, quickReplies flag) are omitted. -/
structure AppState where
  apiKey : String
  temperature : Option ℚ
  topP : Option ℚ
  topK : Option ℚ
  empathicMode : Bool
  chat : List Msg
  input : String
deriving DecidableEq, Repr

/-- The in-memory response cache (`cacheRef`, a JS `Map`).  `set` is modelled
by consing, with lookup taking the most recent binding — observationally the
`Map` overwrite semantics. -/
abbrev Cache := List (String × String)

/-- `cacheRef.current.get(k)` / `has(k)` (the latest binding for `k`). -/
def cacheGet (c : Cache) (k : String) : Option String :=
  match c with
  | [] => none
  | (k0, v) :: rest => if k0 = k then some v else cacheGet rest k

/-- `cacheRef.current.set(k, v)`. -/
def cacheSet (c : Cache) (k v : String) : Cache := (k, v) :: c

/-- Outcome of one network attempt (`axios.post`), as `send` distinguishes
them: an HTTP success carrying the optional text at
`res.data.candidates[0].content.parts[0].text` (`none` = path absent), an
axios error with an HTTP status and optional `response.data.error.message`,
or any other thrown error (network failure / non-axios throw). -/
inductive NetOutcome
  | ok (text : Option String)
  | httpErr (status : Nat) (errMsg : Option String)
  | netFail
deriving DecidableEq, Repr

/-- The `generationConfig` object of the outbound payload. -/
structure GenConfig where
  temperature : ℚ
  topP : ℚ
  topK : ℚ
  candidateCount : Nat
deriving DecidableEq, Repr

/-- The outbound request body: the single-turn prompt text plus the clamped
generation parameters. -/
structure Payload where
  text : String
  config : GenConfig
deriving DecidableEq, Repr

/-- The `generationConfig` built inside `send` from the stored values. -/
def genConfigOf (st : AppState) : GenConfig :=
  { temperature := sentTemperature st.temperature
    topP := sentTopP st.topP
    topK := sentTopK st.topK
    candidateCount := 1 }

/-- Observable events of one `send` invocation, in program order. -/
inductive Ev
  | append (m : Msg)
  | netCall (p : Payload)
  | sleep (ms : Nat)
  | setBusy (b : Bool)
  | cachePut (k v : String)
  | alert (s : String)
deriving DecidableEq, Repr

/-- Result of the retry loop: its event trace, the chat after it, the cache
after it, and the busy flag after it. -/
structure LoopRes where
  trace : List Ev
  chat : List Msg
  cache : Cache
  busy : Bool
deriving DecidableEq, Repr

/-- Result of a whole `send` invocation. -/
structure SendRes where
  trace : List Ev
  state : AppState
  busy : Bool
  cache : Cache
deriving DecidableEq, Repr

/-- The generic failure text used when no remote error message is available. -/
def genericErr : String := "Sorry, something went wrong. Please try again."

/-- The user-visible error text chosen in the catch block:
`err.response?.data?.error?.message` when the error is an axios error
carrying one, else the generic fallback.  (An empty-response `Error` and a
plain network failure are not axios errors with a message, so they fall back.) -/
def errMsgOf : NetOutcome → String
  | .httpErr _ (some m) => m
  | _ => genericErr

/-- The optional empathic wrap of a successful response:
`sUser < 0 && state.empathicMode ? "🫶 \n\n" + text : text`, where `sUser` is
the sentiment score of the trimmed user input. -/
def wrapText (empathicMode : Bool) (question t : String) : String :=
  if sentimentScore question < 0 ∧ empathicMode = true then "🫶 \n\n" ++ t else t

/-- One terminal failure iteration of the retry loop: the network attempt,
the error-flagged assistant append from the catch block, and the
`finally { setBusy(false) }`. -/
def failRes (pl : Payload) (msg : String) (chat : List Msg) (cache : Cache) : LoopRes :=
  let am : Msg := { role := .assistant, text := msg, error := true }
  { trace := [.netCall pl, .append am, .setBusy false]
    chat := chat ++ [am], cache := cache, busy := false }

/-- One successful iteration of the retry loop: the network attempt, the
cache write of the wrapped text, the assistant append, the `break`, and the
`finally { setBusy(false) }`. -/
def okRes (em : Bool) (q : String) (pl : Payload) (t : String)
    (chat : List Msg) (cache : Cache) : LoopRes :=
  let w := wrapText em q t
  let am : Msg := { role := .assistant, text := w }
  { trace := [.netCall pl, .cachePut q w, .append am, .setBusy false]
    chat := chat ++ [am], cache := cacheSet cache q w, busy := false }

/-- The `while (attempt < MAX_ATTEMPTS)` retry loop of `send`, embedded with
`fuel = MAX_ATTEMPTS - attempt` (entered with fuel 3).  Each iteration
consumes one `NetOutcome` (an exhausted outcome list behaves as a network
failure).  On a non-empty response text: cache the wrapped text, append the
assistant message, break.  On HTTP 429 with attempts remaining
(`attempt < MAX_ATTEMPTS` after `attempt++`, i.e. `1 ≤ f`): sleep the
current delay, double it, continue.  Otherwise: append an error-flagged
assistant message (remote error message when the axios error carries one),
break.  The JS `finally { setBusy(false) }` sits INSIDE the loop body, so a
`setBusy false` event is emitted at the end of every iteration — including
before a retry's next attempt. -/
def sendLoop (em : Bool) (q : String) (pl : Payload) :
    Nat → List NetOutcome → Nat → List Msg → Cache → LoopRes
  | 0, _, _, chat, cache => { trace := [], chat := chat, cache := cache, busy := true }
  | _ + 1, [], _, chat, cache => failRes pl genericErr chat cache
  | _ + 1, .ok (some t) :: _, _, chat, cache =>
    if t = "" then failRes pl genericErr chat cache else okRes em q pl t chat cache
  | _ + 1, .ok none :: _, _, chat, cache => failRes pl genericErr chat cache
  | f + 1, .httpErr status e :: rest, delay, chat, cache =>
    if status = 429 ∧ 1 ≤ f then
      let r := sendLoop em q pl f rest (delay * 2) chat cache
      { trace := .netCall pl :: .sleep delay :: .setBusy false :: r.trace
        chat := r.chat, cache := r.cache, busy := r.busy }
    else failRes pl (errMsgOf (.httpErr status e)) chat cache
  | _ + 1, .netFail :: _, _, chat, cache => failRes pl genericErr chat cache

/-- `state.apiKey || import.meta.env.VITE_API_GENERATIVE_LANGUAGE_CLIENT || ''`:
the environment value (or `''` when unset) is the `envKey` parameter. -/
def resolvedKey (st : AppState) (envKey : String) : String :=
  if st.apiKey = "" then envKey else st.apiKey

/-- The `alert` text shown when no API key is configured. -/
def missingKeyAlert : String :=
  "Missing API key. Paste your Google Generative Language API key in Settings (gear icon)."

/-- The core `send` operation, given the pre-call state, the busy flag, the
environment API key, the cache, and the outcome of each network attempt it
would make.  Faithful to the source order: guard on empty trimmed input or
busy; guard on a missing API key (alert, nothing appended); append the user
message and clear the input; on cache hit append the cached assistant
message (flagged `cached`) and return without touching busy; otherwise set
busy, compose the prompt, and run the retry loop. -/
def send (st : AppState) (busy : Bool) (envKey : String) (cache : Cache)
    (outcomes : List NetOutcome) : SendRes :=
  let question := jsTrim st.input
  if question = "" ∨ busy = true then
    { trace := [], state := st, busy := busy, cache := cache }
  else
    let apiKey := resolvedKey st envKey
    if apiKey = "" then
      { trace := [.alert missingKeyAlert], state := st, busy := busy, cache := cache }
    else
      let userMsg : Msg := { role := .user, text := question }
      let st1 : AppState := { st with chat := st.chat ++ [userMsg], input := "" }
      match cacheGet cache question with
      | some cachedv =>
        let am : Msg := { role := .assistant, text := cachedv, cached := true }
        { trace := [.append userMsg, .append am]
          state := { st1 with chat := st1.chat ++ [am] }, busy := busy, cache := cache }
      | none =>
        let enhanced := enhancePrompt st.empathicMode (routeSlashCommand question)
        let payload : Payload := { text := enhanced, config := genConfigOf st }
        let r := sendLoop st.empathicMode question payload 3 outcomes 1200 st1.chat cache
        { trace := .append userMsg :: .setBusy true :: r.trace
          state := { st1 with chat := r.chat }, busy := r.busy, cache := r.cache }

-- ---------- Import ----------

/-- JSON values as produced by a successful `JSON.parse`. -/
inductive Json
  | null
  | bool (b : Bool)
  | num (q : ℚ)
  | str (s : String)
  | arr (xs : List Json)
  | obj (fields : List (String × Json))

/-- JS truthiness of a parsed JSON value (`!data` is its negation). -/
def jsTruthy : Json → Bool
  | .null => false
  | .bool b => b
  | .num q => q ≠ 0
  | .str s => s ≠ ""
  | .arr _ => true
  | .obj _ => true

/-- Whether JS `typeof data === 'object'` holds for a parsed JSON value
(true for `null`, arrays and objects). -/
def jsTypeofIsObject : Json → Bool
  | .null => true
  | .arr _ => true
  | .obj _ => true
  | _ => false

/-- The acceptance test of `importChat`: `data && typeof data === 'object'`,
i.e. the parsed value is a non-null object in the JS sense (note that a JS
array also has `typeof` `'object'` and is therefore accepted). -/
def isNonNullObject (d : Json) : Bool := jsTruthy d && jsTypeofIsObject d

/-- `importChat(file)`: parse the file text (`parsed = none` models a
`JSON.parse` throw); if the value is a non-null object, `setState(data)`
replaces the whole Session State verbatim; otherwise an `Import failed`
alert is surfaced (returned flag `true`) and the state is untouched. -/
def importChat (current : Json) (parsed : Option Json) : Json × Bool :=
  match parsed with
  | none => (current, true)
  | some d => if isNonNullObject d = true then (d, false) else (current, true)

-- ---------- Trace observations ----------

/-- Number of network attempts recorded in a trace. -/
def countNetCalls (tr : List Ev) : Nat :=
  (tr.filter fun ev => match ev with | .netCall _ => true | _ => false).length

/-- The backoff sleeps of a trace, in order, in milliseconds. -/
def sleeps (tr : List Ev) : List Nat :=
  tr.filterMap fun ev => match ev with | .sleep ms => some ms | _ => none

/-- The assistant-role messages appended during a trace, in order. -/
def assistantAppends (tr : List Ev) : List Msg :=
  tr.filterMap fun ev =>
    match ev with
    | .append m => if m.role = .assistant then some m else none
    | _ => none

/-- The alert popups of a trace, in order. -/
def alerts (tr : List Ev) : List String :=
  tr.filterMap fun ev => match ev with | .alert s => some s | _ => none

/-- The value of the busy flag observed at the start of each network attempt
of a trace, given its initial value. -/
def busyBeforeCalls : List Ev → Bool → List Bool
  | [], _ => []
  | .netCall _ :: tr, b => b :: busyBeforeCalls tr b
  | .setBusy b1 :: tr, _ => busyBeforeCalls tr b1
  | _ :: tr, b => busyBeforeCalls tr b

-- ---------- General lemmas ----------

/-- Every list is a prefix of itself. -/
lemma pfx_refl : ∀ l : List Char, pfx l l = true
  | [] => rfl
  | a :: as => by simp [pfx, pfx_refl as]

/-- A list occurs as a substring of anything that ends with it. -/
lemma hasSub_append_self (w : List Char) : ∀ xs : List Char, hasSub w (xs ++ w) = true := by
  intro xs
  induction xs with
  | nil =>
    cases w with
    | nil => rfl
    | cons c cs => simp [hasSub, pfx_refl]
  | cons x xs ih =>
    simp [hasSub, ih]

/-- A left fold subtracting 1 per satisfied predicate computes `a - countP`. -/
lemma foldl_pred_sub (p : String → Bool) :
    ∀ (l : List String) (a : Int),
      l.foldl (fun s w => if p w then s - 1 else s) a = a - l.countP p := by
  intro l
  induction l with
  | nil => intro a; simp
  | cons w l ih =>
    intro a
    rcases hp : p w with _ | _
    · simp [List.foldl, List.countP_cons, hp, ih]
    · simp only [List.foldl, List.countP_cons, hp, if_true, ih]
      push_cast
      ring

/-- A left fold adding 1 per satisfied predicate computes `a + countP`. -/
lemma foldl_pred_add (p : String → Bool) :
    ∀ (l : List String) (a : Int),
      l.foldl (fun s w => if p w then s + 1 else s) a = a + l.countP p := by
  intro l
  induction l with
  | nil => intro a; simp
  | cons w l ih =>
    intro a
    rcases hp : p w with _ | _
    · simp [List.foldl, List.countP_cons, hp, ih]
    · simp only [List.foldl, List.countP_cons, hp, if_true, ih]
      push_cast
      ring

/-- `countP` is unchanged when the predicates agree on every element. -/
lemma countP_ext (p q : String → Bool) (l : List String)
    (h : ∀ a ∈ l, p a = q a) : l.countP p = l.countP q := by
  refine List.countP_congr (fun x hx => ?_)
  rw [h x hx]

/-- Flipping a predicate from false to true at one element of a duplicate-free
list, leaving it unchanged elsewhere, raises `countP` by exactly 1. -/
lemma countP_flip_one (l : List String) (w : String) (p q : String → Bool)
    (hnd : l.Nodup) (hmem : w ∈ l)
    (hq : ∀ k ∈ l, k ≠ w → q k = p k)
    (hpw : p w = false) (hqw : q w = true) :
    l.countP q = l.countP p + 1 := by
  induction l with
  | nil => cases hmem
  | cons a l ih =>
    have hnd2 := List.nodup_cons.mp hnd
    rcases List.mem_cons.mp hmem with rfl | hmem2
    · have htail : l.countP q = l.countP p := by
        refine countP_ext q p l (fun k hk => ?_)
        exact hq k (List.mem_cons_of_mem _ hk) (fun hkw => hnd2.1 (hkw ▸ hk))
      simp [List.countP_cons, hqw, hpw, htail]
    · have ha : a ≠ w := fun h => hnd2.1 (h ▸ hmem2)
      have hqa : q a = p a := hq a (List.mem_cons_self a l) ha
      have := ih hnd2.2 hmem2 (fun k hk hkw => hq k (List.mem_cons_of_mem _ hk) hkw)
      simp [List.countP_cons, hqa, this]
      omega

/-- Characterization of the sentiment score: number of positive keywords
present minus number of negative keywords present, each keyword counted at
most once regardless of how often it repeats in the text. -/
lemma sentimentScore_eq_counts (text : String) :
    sentimentScore text =
      (POS.countP fun k => present text k : Int) -
      (NEG.countP fun k => present text k : Int) := by
  by_cases htext : text = ""
  · subst htext; decide
  · simp only [sentimentScore, if_neg htext]
    rw [foldl_pred_sub (fun w => jsIncludes (jsLower text) w) NEG 0,
        foldl_pred_add (fun w => jsIncludes (jsLower text) w) POS _]
    unfold present
    ring

/-- Lowercasing a string by the modelled `toLowerCase` distributes over
append at the character-list level. -/
lemma jsLower_data_append (a b : String) :
    (jsLower (a ++ b)).data = (jsLower a).data ++ (jsLower b).data := by
  simp [jsLower, String.data_append]

/-- Every listed negative keyword is already lowercase. -/
lemma neg_keywords_lower : ∀ x ∈ NEG, x.data.map Char.toLower = x.data := by decide

/-- Any listed negative keyword is present in `text ++ " " ++ w`. -/
lemma present_append_self (text w : String) (hw : w ∈ NEG) :
    present (text ++ " " ++ w) w = true := by
  have hlow : w.data.map Char.toLower = w.data := neg_keywords_lower w hw
  unfold present jsIncludes
  rw [jsLower_data_append, jsLower_data_append]
  show hasSub w.data (((jsLower text).data ++ (jsLower " ").data) ++ w.data.map Char.toLower) = true
  rw [hlow]
  exact hasSub_append_self w.data _

/-- The clamp result is bounded below by the lower bound. -/
lemma clamp_lower (v a b : ℚ) : a ≤ clamp v a b := le_max_left a _

/-- The clamp result is bounded above by the upper bound when the bounds are
ordered. -/
lemma clamp_upper (v a b : ℚ) (hab : a ≤ b) : clamp v a b ≤ b :=
  max_le hab (min_le_right v b)

/-- Every network attempt issued by the retry loop carries the payload the
loop was given. -/
lemma sendLoop_netCall_payload (em : Bool) (q : String) (pl : Payload) :
    ∀ (fuel : Nat) (outcomes : List NetOutcome) (delay : Nat) (chat : List Msg)
      (cache : Cache) (p : Payload),
      Ev.netCall p ∈ (sendLoop em q pl fuel outcomes delay chat cache).trace →
      p = pl := by
  intro fuel
  induction fuel with
  | zero => intro outcomes delay chat cache p h; simp [sendLoop] at h
  | succ f ih =>
    intro outcomes delay chat cache p h
    rcases outcomes with _ | ⟨o, rest⟩
    · simp [sendLoop, failRes] at h
      exact h
    · rcases o with t | ⟨status, e⟩ | _
      · rcases t with _ | t
        · simp [sendLoop, failRes] at h
          exact h
        · by_cases ht : t = "" <;>
            simp [sendLoop, failRes, okRes, ht] at h <;> exact h
      · by_cases hr : status = 429 ∧ 1 ≤ f
        · simp [sendLoop, hr] at h
          rcases h with h | h
          · exact h
          · exact ih rest _ chat cache p h
        · simp [sendLoop, failRes, hr] at h
          exact h
      · simp [sendLoop, failRes] at h
        exact h

/-- Every network attempt issued by `send` carries the composed prompt and
the clamped generation configuration of the current state. -/
lemma send_netCall_payload (st : AppState) (busy : Bool) (envKey : String)
    (cache : Cache) (outcomes : List NetOutcome) (p : Payload)
    (h : Ev.netCall p ∈ (send st busy envKey cache outcomes).trace) :
    p = { text := enhancePrompt st.empathicMode (routeSlashCommand (jsTrim st.input))
          config := genConfigOf st } := by
  by_cases hg : jsTrim st.input = "" ∨ busy = true
  · simp [send, hg] at h
  · by_cases hk : resolvedKey st envKey = ""
    · simp [send, hg, hk] at h
    · rcases hc : cacheGet cache (jsTrim st.input) with _ | v
      · simp [send, hg, hk, hc] at h
        exact sendLoop_netCall_payload _ _ _ _ _ _ _ _ p h
      · simp [send, hg, hk, hc] at h

-- ---------- Unfolding lemmas for send ----------

/-- The user message appended by a send from state `st`. -/
def userMsgOf (st : AppState) : Msg := { role := .user, text := jsTrim st.input }

/-- The payload a cache-missing send from state `st` posts. -/
def missPayload (st : AppState) : Payload :=
  { text := enhancePrompt st.empathicMode (routeSlashCommand (jsTrim st.input))
    config := genConfigOf st }

/-- The retry loop a cache-missing send from state `st` runs. -/
def loopOf (st : AppState) (cache : Cache) (outcomes : List NetOutcome) : LoopRes :=
  sendLoop st.empathicMode (jsTrim st.input) (missPayload st) 3 outcomes 1200
    (st.chat ++ [userMsgOf st]) cache

/-- Looking a key up right after setting it returns the set value. -/
lemma cacheGet_set_self (c : Cache) (k v : String) : cacheGet (cacheSet c k v) k = some v := by
  simp [cacheGet, cacheSet]

/-- Unfolding a guarded, keyed, cache-missing send into its user-append, its
busy-set and its retry loop. -/
lemma send_miss (st : AppState) (envKey : String) (cache : Cache)
    (outcomes : List NetOutcome)
    (hq : ¬jsTrim st.input = "") (hk : ¬resolvedKey st envKey = "")
    (hc : cacheGet cache (jsTrim st.input) = none) :
    send st false envKey cache outcomes =
      { trace := .append (userMsgOf st) :: .setBusy true :: (loopOf st cache outcomes).trace
        state := { st with chat := (loopOf st cache outcomes).chat, input := "" }
        busy := (loopOf st cache outcomes).busy
        cache := (loopOf st cache outcomes).cache } := by
  have hg : ¬(jsTrim st.input = "" ∨ (false : Bool) = true) := by simp [hq]
  simp only [send, if_neg hg, if_neg hk, hc, loopOf, missPayload, userMsgOf]

/-- Unfolding a guarded, keyed, cache-hitting send: the cached value is
replayed as a `cached`-flagged assistant message, with no busy write. -/
lemma send_hit (st : AppState) (envKey : String) (cache : Cache)
    (outcomes : List NetOutcome) (v : String)
    (hq : ¬jsTrim st.input = "") (hk : ¬resolvedKey st envKey = "")
    (hc : cacheGet cache (jsTrim st.input) = some v) :
    send st false envKey cache outcomes =
      { trace := [.append (userMsgOf st), .append { role := .assistant, text := v, cached := true }]
        state := { st with
          chat := st.chat ++ [userMsgOf st, { role := .assistant, text := v, cached := true }]
          input := "" }
        busy := false, cache := cache } := by
  have hg : ¬(jsTrim st.input = "" ∨ (false : Bool) = true) := by simp [hq]
  simp only [send, if_neg hg, if_neg hk, hc, userMsgOf]
  simp

/-- One retrying 429 iteration of the loop. -/
lemma sendLoop_429_step (em : Bool) (q : String) (pl : Payload) (e : Option String)
    (rest : List NetOutcome) (d : Nat) (chat : List Msg) (cache : Cache) (f : Nat)
    (hf : 1 ≤ f) :
    sendLoop em q pl (f + 1) (.httpErr 429 e :: rest) d chat cache =
      { trace := .netCall pl :: .sleep d :: .setBusy false ::
          (sendLoop em q pl f rest (d * 2) chat cache).trace
        chat := (sendLoop em q pl f rest (d * 2) chat cache).chat
        cache := (sendLoop em q pl f rest (d * 2) chat cache).cache
        busy := (sendLoop em q pl f rest (d * 2) chat cache).busy } := by
  simp [sendLoop, hf]

/-- A successful iteration of the loop on a non-empty response text. -/
lemma sendLoop_ok_step (em : Bool) (q : String) (pl : Payload) (t : String)
    (rest : List NetOutcome) (d : Nat) (chat : List Msg) (cache : Cache) (f : Nat)
    (ht : ¬t = "") :
    sendLoop em q pl (f + 1) (.ok (some t) :: rest) d chat cache =
      okRes em q pl t chat cache := by
  simp [sendLoop, ht]

/-- A terminal 429 iteration (no attempts remaining): the error message of
THIS response (remote message when present) is appended, error-flagged. -/
lemma sendLoop_429_last (em : Bool) (q : String) (pl : Payload) (e : Option String)
    (rest : List NetOutcome) (d : Nat) (chat : List Msg) (cache : Cache) :
    sendLoop em q pl 1 (.httpErr 429 e :: rest) d chat cache =
      failRes pl (errMsgOf (.httpErr 429 e)) chat cache := by
  simp [sendLoop]

-- ---------- Concrete states used by witnesses and counterexamples ----------

/-- A state with out-of-range generation parameters: temperature 5, topK 0. -/
def stTopKZero : AppState :=
  { apiKey := "k", temperature := some 5, topP := some (19 / 20), topK := some 0,
    empathicMode := false, chat := [], input := "hello" }

/-- A plain ready-to-send state. -/
def stRetry : AppState :=
  { apiKey := "k", temperature := none, topP := none, topK := none,
    empathicMode := true, chat := [], input := "hi" }

/-- A state whose input is whitespace-only. -/
def stEmpty : AppState :=
  { apiKey := "k", temperature := none, topP := none, topK := none,
    empathicMode := true, chat := [], input := "   " }

/-- A state with no API key configured. -/
def stNoKey : AppState :=
  { apiKey := "", temperature := none, topP := none, topK := none,
    empathicMode := true, chat := [], input := "hi" }

-- ---------- Claims ----------

/-- C1: a guarded, keyed, cache-missing send whose three network attempts all
receive HTTP 429 makes exactly 3 attempts, separated by exactly the two
backoff delays 1200ms then 2400ms, surfaces no alert, and appends exactly one
assistant-role message — flagged as an error — to the conversation. -/
theorem retry_429_exhaustion (st : AppState) (envKey : String) (cache : Cache)
    (e1 e2 e3 : Option String)
    (hq : ¬jsTrim st.input = "") (hk : ¬resolvedKey st envKey = "")
    (hc : cacheGet cache (jsTrim st.input) = none) :
    countNetCalls (send st false envKey cache
      [.httpErr 429 e1, .httpErr 429 e2, .httpErr 429 e3]).trace = 3 ∧
    sleeps (send st false envKey cache
      [.httpErr 429 e1, .httpErr 429 e2, .httpErr 429 e3]).trace = [1200, 2400] ∧
    alerts (send st false envKey cache
      [.httpErr 429 e1, .httpErr 429 e2, .httpErr 429 e3]).trace = [] ∧
    assistantAppends (send st false envKey cache
      [.httpErr 429 e1, .httpErr 429 e2, .httpErr 429 e3]).trace =
      [{ role := .assistant, text := errMsgOf (.httpErr 429 e3), error := true }] ∧
    (send st false envKey cache
      [.httpErr 429 e1, .httpErr 429 e2, .httpErr 429 e3]).state.chat =
      st.chat ++ [userMsgOf st,
        { role := .assistant, text := errMsgOf (.httpErr 429 e3), error := true }] := by
  rw [send_miss st envKey cache _ hq hk hc]
  have hloop : loopOf st cache [.httpErr 429 e1, .httpErr 429 e2, .httpErr 429 e3] =
      { trace := [.netCall (missPayload st), .sleep 1200, .setBusy false,
                  .netCall (missPayload st), .sleep 2400, .setBusy false,
                  .netCall (missPayload st),
                  .append { role := .assistant, text := errMsgOf (.httpErr 429 e3), error := true },
                  .setBusy false]
        chat := (st.chat ++ [userMsgOf st]) ++
          [{ role := .assistant, text := errMsgOf (.httpErr 429 e3), error := true }]
        cache := cache, busy := false } := by
    rw [loopOf, show (3 : Nat) = 2 + 1 from rfl,
        sendLoop_429_step _ _ _ _ _ _ _ _ _ (by norm_num),
        show (2 : Nat) = 1 + 1 from rfl,
        sendLoop_429_step _ _ _ _ _ _ _ _ _ (by norm_num),
        sendLoop_429_last]
    simp [failRes]
  rw [hloop]
  simp [countNetCalls, sleeps, alerts, assistantAppends, userMsgOf, List.filter, List.filterMap]

/-- Witness for C1: three 429s at a concrete state give 3 attempts, delays
1200 then 2400, no alert, and a single error-flagged assistant append. -/
theorem retry_429_exhaustion_witness :
    countNetCalls (send stRetry false "" []
      [.httpErr 429 none, .httpErr 429 none, .httpErr 429 none]).trace = 3 ∧
    sleeps (send stRetry false "" []
      [.httpErr 429 none, .httpErr 429 none, .httpErr 429 none]).trace = [1200, 2400] ∧
    assistantAppends (send stRetry false "" []
      [.httpErr 429 none, .httpErr 429 none, .httpErr 429 none]).trace =
      [{ role := .assistant, text := errMsgOf (.httpErr 429 none), error := true }] := by
  have h := retry_429_exhaustion stRetry "" [] none none none (by decide) (by decide) rfl
  exact ⟨h.1, h.2.1, h.2.2.2.1⟩

/-- C4: after a first guarded, keyed, cache-missing send succeeds with text
`t`, the wrapped text is cached under the exact trimmed user input (before
command/tone expansion, not the composed prompt); a second send whose input
trims to the same string issues no network call and appends one assistant
message whose text equals the cached value from the first send, flagged
`cached`. -/
theorem cache_idempotent_second_send (st st2 : AppState) (envKey : String)
    (cache : Cache) (t i2 : String) (os2 : List NetOutcome) (r1 : SendRes)
    (hq : ¬jsTrim st.input = "") (hk : ¬resolvedKey st envKey = "")
    (hc : cacheGet cache (jsTrim st.input) = none) (ht : ¬t = "")
    (hr1 : r1 = send st false envKey cache [.ok (some t)])
    (hst2 : st2 = { r1.state with input := i2 })
    (hi2 : jsTrim i2 = jsTrim st.input) :
    countNetCalls r1.trace = 1 ∧
    cacheGet r1.cache (jsTrim st.input) =
      some (wrapText st.empathicMode (jsTrim st.input) t) ∧
    assistantAppends r1.trace =
      [{ role := .assistant, text := wrapText st.empathicMode (jsTrim st.input) t }] ∧
    r1.busy = false ∧
    countNetCalls (send st2 r1.busy envKey r1.cache os2).trace = 0 ∧
    assistantAppends (send st2 r1.busy envKey r1.cache os2).trace =
      [{ role := .assistant, text := wrapText st.empathicMode (jsTrim st.input) t,
         cached := true }] := by
  have hr1e : r1 =
      { trace := [.append (userMsgOf st), .setBusy true, .netCall (missPayload st),
          .cachePut (jsTrim st.input) (wrapText st.empathicMode (jsTrim st.input) t),
          .append { role := .assistant, text := wrapText st.empathicMode (jsTrim st.input) t },
          .setBusy false]
        state := { st with
          chat := (st.chat ++ [userMsgOf st]) ++
            [{ role := .assistant, text := wrapText st.empathicMode (jsTrim st.input) t }]
          input := "" }
        busy := false
        cache := cacheSet cache (jsTrim st.input) (wrapText st.empathicMode (jsTrim st.input) t) } := by
    rw [hr1, send_miss st envKey cache _ hq hk hc, loopOf,
        show (3 : Nat) = 2 + 1 from rfl, sendLoop_ok_step _ _ _ _ _ _ _ _ _ ht]
    simp [okRes]
  have hbusy1 : r1.busy = false := by rw [hr1e]
  have hcache1 : r1.cache =
      cacheSet cache (jsTrim st.input) (wrapText st.empathicMode (jsTrim st.input) t) := by
    rw [hr1e]
  have hst2i : st2.input = i2 := by rw [hst2]
  have hst2k : st2.apiKey = st.apiKey := by rw [hst2, hr1e]
  have hq2 : ¬jsTrim st2.input = "" := by rw [hst2i, hi2]; exact hq
  have hk2 : ¬resolvedKey st2 envKey = "" := by
    simp only [resolvedKey, hst2k]
    simpa [resolvedKey] using hk
  have hc2 : cacheGet r1.cache (jsTrim st2.input) =
      some (wrapText st.empathicMode (jsTrim st.input) t) := by
    rw [hcache1, hst2i, hi2, cacheGet_set_self]
  refine ⟨?_, ?_, ?_, ?_, ?_, ?_⟩
  · rw [hr1e]; simp [countNetCalls]
  · rw [hcache1, cacheGet_set_self]
  · rw [hr1e]; simp [assistantAppends, userMsgOf, List.filterMap]
  · exact hbusy1
  · rw [hbusy1, send_hit st2 envKey r1.cache os2 _ hq2 hk2 hc2]
    simp [countNetCalls]
  · rw [hbusy1, send_hit st2 envKey r1.cache os2 _ hq2 hk2 hc2]
    simp [assistantAppends, userMsgOf, List.filterMap]

/-- Witness for C4: a concrete second send with differently-padded input
replays the first send's cached assistant text, flagged cached. -/
theorem cache_idempotent_second_send_witness :
    assistantAppends (send
        { (send stRetry false "" [] [.ok (some "Resp")]).state with input := " hi " }
        (send stRetry false "" [] [.ok (some "Resp")]).busy ""
        (send stRetry false "" [] [.ok (some "Resp")]).cache []).trace =
      [{ role := .assistant, text := wrapText stRetry.empathicMode (jsTrim stRetry.input) "Resp",
         cached := true }] :=
  (cache_idempotent_second_send stRetry _ "" [] "Resp" " hi " [] _
    (by decide) (by decide) rfl (by decide) rfl rfl (by decide)).2.2.2.2.2

/-- C10: for a guarded, keyed, cache-missing send whose network attempts are
`k ≤ 2` consecutive 429s followed by a success with non-empty text `t`, the
value stored in the cache under the trimmed input equals exactly the text of
the assistant message appended to the chat for that send — the wrapped text,
which carries the empathic-mode prefix exactly when the user input's
sentiment score is negative and empathic mode is on. -/
theorem cache_value_matches_append (st : AppState) (envKey : String) (cache : Cache)
    (t : String) (e : Option String) (k : Nat)
    (hq : ¬jsTrim st.input = "") (hk : ¬resolvedKey st envKey = "")
    (hc : cacheGet cache (jsTrim st.input) = none) (ht : ¬t = "") (hk2 : k ≤ 2) :
    cacheGet (send st false envKey cache
        (List.replicate k (.httpErr 429 e) ++ [.ok (some t)])).cache (jsTrim st.input) =
      some (wrapText st.empathicMode (jsTrim st.input) t) ∧
    assistantAppends (send st false envKey cache
        (List.replicate k (.httpErr 429 e) ++ [.ok (some t)])).trace =
      [{ role := .assistant, text := wrapText st.empathicMode (jsTrim st.input) t }] ∧
    (send st false envKey cache
        (List.replicate k (.httpErr 429 e) ++ [.ok (some t)])).state.chat =
      st.chat ++ [userMsgOf st,
        { role := .assistant, text := wrapText st.empathicMode (jsTrim st.input) t }] ∧
    wrapText st.empathicMode (jsTrim st.input) t =
      (if sentimentScore (jsTrim st.input) < 0 ∧ st.empathicMode = true
       then "🫶 \n\n" ++ t else t) := by
  rw [send_miss st envKey cache _ hq hk hc]
  interval_cases k
  · have hl : loopOf st cache (List.replicate 0 (.httpErr 429 e) ++ [.ok (some t)]) =
        okRes st.empathicMode (jsTrim st.input) (missPayload st) t
          (st.chat ++ [userMsgOf st]) cache := by
      rw [loopOf, List.replicate, List.nil_append,
          show (3 : Nat) = 2 + 1 from rfl, sendLoop_ok_step _ _ _ _ _ _ _ _ _ ht]
    rw [hl]
    refine ⟨?_, ?_, ?_, rfl⟩
    · simp [okRes, cacheGet_set_self]
    · simp [assistantAppends, okRes, userMsgOf, List.filterMap]
    · simp [okRes]
  · have hl : loopOf st cache (List.replicate 1 (.httpErr 429 e) ++ [.ok (some t)]) =
        { trace := .netCall (missPayload st) :: .sleep 1200 :: .setBusy false ::
            (okRes st.empathicMode (jsTrim st.input) (missPayload st) t
              (st.chat ++ [userMsgOf st]) cache).trace
          chat := (okRes st.empathicMode (jsTrim st.input) (missPayload st) t
            (st.chat ++ [userMsgOf st]) cache).chat
          cache := (okRes st.empathicMode (jsTrim st.input) (missPayload st) t
            (st.chat ++ [userMsgOf st]) cache).cache
          busy := (okRes st.empathicMode (jsTrim st.input) (missPayload st) t
            (st.chat ++ [userMsgOf st]) cache).busy } := by
      rw [loopOf]
      simp only [List.replicate, List.cons_append, List.nil_append]
      rw [show (3 : Nat) = 2 + 1 from rfl,
          sendLoop_429_step _ _ _ _ _ _ _ _ _ (by norm_num),
          show (2 : Nat) = 1 + 1 from rfl, sendLoop_ok_step _ _ _ _ _ _ _ _ _ ht]
    rw [hl]
    refine ⟨?_, ?_, ?_, rfl⟩
    · simp [okRes, cacheGet_set_self]
    · simp [assistantAppends, okRes, userMsgOf, List.filterMap]
    · simp [okRes]
  · have hl : loopOf st cache (List.replicate 2 (.httpErr 429 e) ++ [.ok (some t)]) =
        { trace := .netCall (missPayload st) :: .sleep 1200 :: .setBusy false ::
            .netCall (missPayload st) :: .sleep 2400 :: .setBusy false ::
            (okRes st.empathicMode (jsTrim st.input) (missPayload st) t
              (st.chat ++ [userMsgOf st]) cache).trace
          chat := (okRes st.empathicMode (jsTrim st.input) (missPayload st) t
            (st.chat ++ [userMsgOf st]) cache).chat
          cache := (okRes st.empathicMode (jsTrim st.input) (missPayload st) t
            (st.chat ++ [userMsgOf st]) cache).cache
          busy := (okRes st.empathicMode (jsTrim st.input) (missPayload st) t
            (st.chat ++ [userMsgOf st]) cache).busy } := by
      rw [loopOf]
      simp only [List.replicate, List.cons_append, List.nil_append]
      rw [show (3 : Nat) = 2 + 1 from rfl,
          sendLoop_429_step _ _ _ _ _ _ _ _ _ (by norm_num),
          show (2 : Nat) = 1 + 1 from rfl,
          sendLoop_429_step _ _ _ _ _ _ _ _ _ (by norm_num),
          sendLoop_ok_step _ _ _ _ _ _ _ _ _ ht]
    rw [hl]
    refine ⟨?_, ?_, ?_, rfl⟩
    · simp [okRes, cacheGet_set_self]
    · simp [assistantAppends, okRes, userMsgOf, List.filterMap]
    · simp [okRes]

/-- Witness for C10: one 429 then a success at a concrete state caches
exactly the appended assistant text. -/
theorem cache_value_matches_append_witness :
    cacheGet (send stRetry false "" []
        (List.replicate 1 (.httpErr 429 none) ++ [.ok (some "Resp")])).cache
        (jsTrim stRetry.input) =
      some (wrapText stRetry.empathicMode (jsTrim stRetry.input) "Resp") :=
  (cache_value_matches_append stRetry "" [] "Resp" none 1
    (by decide) (by decide) rfl (by decide) (by decide)).1

/-- C5: `routeSlashCommand("/summarize I am stressed")` returns a string
starting with `"Summarize this in 3 bullets and 1 next step."` and containing
`"I am stressed"`, and an unrecognized command token passes the original
string through unchanged: `routeSlashCommand("/foo bar") = "/foo bar"`. -/
theorem routeSlashCommand_spec :
    jsStartsWith (routeSlashCommand "/summarize I am stressed")
      "Summarize this in 3 bullets and 1 next step." = true ∧
    jsIncludes (routeSlashCommand "/summarize I am stressed") "I am stressed" = true ∧
    routeSlashCommand "/foo bar" = "/foo bar" := by decide

/-- C2 counterexample: a stored `topK` of 0 is NOT sent as 1.  Since `0` is
falsy, `Number(state.topK) || 40` replaces it with the default 40 before
clamping, so the `generationConfig` of the outbound payload carries 40. -/
theorem stored_topK_zero_not_sent_as_one :
    (genConfigOf stTopKZero).topK = 40 ∧ ¬(genConfigOf stTopKZero).topK = 1 := by
  decide

/-- C2 (amended): every network attempt of every send carries the clamped
generation parameters regardless of stored values — temperature in `[0,2]`,
topP in `[0,1]`, topK in `[1,200]`; a stored temperature of 5 is sent as 2,
and a stored topK of 0 is sent as 40 (the falsy-default `|| 40` replaces 0
by the default before clamping), not 1. -/
theorem gen_params_clamped (st : AppState) (busy : Bool) (envKey : String)
    (cache : Cache) (outcomes : List NetOutcome) (p : Payload)
    (hp : Ev.netCall p ∈ (send st busy envKey cache outcomes).trace) :
    p.config = genConfigOf st ∧
    (0 ≤ p.config.temperature ∧ p.config.temperature ≤ 2) ∧
    (0 ≤ p.config.topP ∧ p.config.topP ≤ 1) ∧
    (1 ≤ p.config.topK ∧ p.config.topK ≤ 200) ∧
    (st.temperature = some 5 → p.config.temperature = 2) ∧
    (st.topK = some 0 → p.config.topK = 40) := by
  have hpc := send_netCall_payload st busy envKey cache outcomes p hp
  subst hpc
  refine ⟨rfl, ⟨clamp_lower _ 0 2, clamp_upper _ 0 2 (by norm_num)⟩,
    ⟨clamp_lower _ 0 1, clamp_upper _ 0 1 (by norm_num)⟩,
    ⟨clamp_lower _ 1 200, clamp_upper _ 1 200 (by norm_num)⟩, ?_, ?_⟩
  · intro h5
    show sentTemperature st.temperature = 2
    rw [h5]
    decide
  · intro h0
    show sentTopK st.topK = 40
    rw [h0]
    decide

set_option maxRecDepth 4096 in
/-- Witness for C2: in a concrete send whose state stores temperature 5 and
topK 0, the network attempt's payload carries temperature 2 and topK 40. -/
theorem gen_params_clamped_witness :
    (genConfigOf stTopKZero).temperature = 2 ∧ (genConfigOf stTopKZero).topK = 40 := by
  have hmem : Ev.netCall
      { text := enhancePrompt stTopKZero.empathicMode (routeSlashCommand (jsTrim stTopKZero.input))
        config := genConfigOf stTopKZero } ∈
      (send stTopKZero false "" [] [.ok (some "R")]).trace :=
    List.Mem.tail _ (List.Mem.tail _ (List.Mem.head _))
  have h := gen_params_clamped stTopKZero false "" [] [.ok (some "R")] _ hmem
  exact ⟨h.2.2.2.2.1 rfl, h.2.2.2.2.2 rfl⟩

/-- C3 (code-bug evidence): the busy flag observed at the start of each of
the three network attempts of a send whose attempts all receive HTTP 429 is
`[true, false, false]`: because the `finally { setBusy(false) }` sits inside
the `while` loop and runs on `continue`, busy is already false during the
second and third attempts (and during the second backoff delay), so a second
send invoked then is NOT blocked — contradicting the claim that the busy
flag stays set until the send terminates. -/
theorem busy_cleared_during_retries :
    busyBeforeCalls
      (send stRetry false "" []
        [.httpErr 429 none, .httpErr 429 none, .httpErr 429 none]).trace false
      = [true, false, false] := by decide

/-- C9: calling send with a whitespace-only (or empty) trimmed input, or
while busy, is a complete no-op: the trace is empty (no network attempt, no
alert, no busy write), no message is appended, the input field is not
cleared, and the cache is untouched. -/
theorem send_noop_empty_or_busy (st : AppState) (busy : Bool) (envKey : String)
    (cache : Cache) (outcomes : List NetOutcome)
    (h : jsTrim st.input = "" ∨ busy = true) :
    send st busy envKey cache outcomes =
      { trace := [], state := st, busy := busy, cache := cache } := by
  simp only [send]
  rw [if_pos h]

/-- Witness for C9 at a whitespace-only input. -/
theorem send_noop_empty_or_busy_witness :
    send stEmpty false "" [] [] =
      { trace := [], state := stEmpty, busy := false, cache := [] } :=
  send_noop_empty_or_busy stEmpty false "" [] [] (Or.inl (by decide))

/-- C7: with no API key configured (neither stored nor in the environment),
send fails fast: the only event is the missing-key alert surfaced directly
to the user — no network attempt, and no message of any kind enters the
conversation (the state, including the chat log, is unchanged). -/
theorem missing_key_fails_fast (st : AppState) (busy : Bool) (envKey : String)
    (cache : Cache) (outcomes : List NetOutcome)
    (hg : ¬(jsTrim st.input = "" ∨ busy = true))
    (hk : resolvedKey st envKey = "") :
    send st busy envKey cache outcomes =
      { trace := [.alert missingKeyAlert], state := st, busy := busy, cache := cache } := by
  simp only [send]
  rw [if_neg hg, if_pos hk]

/-- Witness for C7 at a concrete keyless state. -/
theorem missing_key_fails_fast_witness :
    send stNoKey false "" [] [] =
      { trace := [.alert missingKeyAlert], state := stNoKey, busy := false, cache := [] } :=
  missing_key_fails_fast stNoKey false "" [] [] (by decide) (by decide)

/-- C6 counterexample: the text "sad" already contains the listed negative
keyword "sad"; adding one more occurrence of it leaves the score unchanged at
−1 — a decrease of 0, not 1 — because each keyword contributes at most once.
This refutes "decreases the score by exactly 1 regardless of the repetition
count of that same keyword". -/
theorem add_repeated_neg_keyword_no_change :
    present "sad" "sad" = true ∧
    sentimentScore ("sad" ++ " " ++ "sad") = sentimentScore "sad" := by decide

/-- C6 (amended): the score is the deterministic count of positive keywords
present (as case-insensitive substrings) minus negative keywords present,
each keyword contributing at most once; consequently, adding one occurrence
of a listed negative keyword NOT already present — when the addition changes
no other keyword's presence — decreases the score by exactly 1 (while adding
a repeated occurrence of an already-present keyword leaves it unchanged). -/
theorem sentimentScore_spec :
    (∀ text : String,
      sentimentScore text =
        (POS.countP fun k => present text k : Int) -
        (NEG.countP fun k => present text k : Int)) ∧
    (∀ text w : String, w ∈ NEG → present text w = false →
      (∀ k, k ∈ NEG ++ POS → ¬k = w → present (text ++ " " ++ w) k = present text k) →
      sentimentScore (text ++ " " ++ w) = sentimentScore text - 1) := by
  refine ⟨sentimentScore_eq_counts, fun text w hw hnp hframe => ?_⟩
  have hnegdisj : ∀ x ∈ NEG, x ∉ POS := by decide
  have hnodup : NEG.Nodup := by decide
  have hpos : (POS.countP fun k => present (text ++ " " ++ w) k) =
      (POS.countP fun k => present text k) := by
    refine countP_ext _ _ POS (fun k hk => ?_)
    exact hframe k (List.mem_append_right _ hk) (fun hkw => hnegdisj w hw (hkw ▸ hk))
  have hneg : (NEG.countP fun k => present (text ++ " " ++ w) k) =
      (NEG.countP fun k => present text k) + 1 := by
    exact countP_flip_one NEG w _ _ hnodup hw
      (fun k hk hkw => hframe k (List.mem_append_left _ hk) hkw) hnp
      (present_append_self text w hw)
  rw [sentimentScore_eq_counts, sentimentScore_eq_counts, hpos, hneg]
  push_cast
  ring

/-- Witness for C6: adding "sad" to "happy day" (where it is absent and
changes no other keyword's presence) drops the score from 1 to 0. -/
theorem sentimentScore_spec_witness :
    sentimentScore ("happy day" ++ " " ++ "sad") = sentimentScore "happy day" - 1 :=
  sentimentScore_spec.2 "happy day" "sad" (by decide) (by decide) (by decide)

/-- C8: importChat accepts the file only if its contents parse as JSON to a
non-null object in the JS sense (`data && typeof data === 'object'`; note a
JS array also has `typeof` `'object'`), in which case the entire Session
State is replaced verbatim by the parsed value and no notice is raised; for
a parse failure or any other parsed value, the InvalidImport alert is
surfaced and the Session State is left completely unchanged. -/
theorem importChat_spec (cur : Json) (p : Option Json) :
    (∀ d, p = some d → isNonNullObject d = true → importChat cur p = (d, false)) ∧
    (p = none → importChat cur p = (cur, true)) ∧
    (∀ d, p = some d → isNonNullObject d = false → importChat cur p = (cur, true)) := by
  refine ⟨fun d hd hni => ?_, fun hn => ?_, fun d hd hni => ?_⟩
  · subst hd; simp [importChat, hni]
  · subst hn; rfl
  · subst hd; simp [importChat, hni]

/-- Witness for C8: a malformed-but-object import (`{"chat": "not-an-array"}`)
is accepted verbatim. -/
theorem importChat_spec_witness :
    importChat Json.null (some (Json.obj [("chat", Json.str "not-an-array")])) =
      (Json.obj [("chat", Json.str "not-an-array")], false) :=
  (importChat_spec Json.null _).1 _ rfl rfl

end EmpathicListener
